import Mathlib

/-!
Shallow embedding of `src/modules/chatgpt_integration.py` (the
`ChatGPTIntegration` client): JSON-like dynamic values, the rate limiter
`_rate_limit_protection`, the request executor `_make_api_request`, and the
three prompt operations `enhance_prompt`, `improve_image_prompt` and
`generate_alternative_prompt`.

Time is modelled by an explicit clock carried in the client state:
`time.time()` reads the clock and `time.sleep d` advances it by exactly `d`.
The network is modelled by an oracle `network : Payload → Nat → AttemptOutcome`
giving, for a request body and an attempt index, what `requests.post`
produces on that attempt.
-/

/-- A JSON-like dynamic value, as the module passes them around: response
bodies, the dicts the request executor returns, and strings. An object is a
list of key/value fields (keys unique in every body considered here). -/
inductive Json where
  | str (s : String)
  | num (n : Int)
  | arr (xs : List Json)
  | obj (fields : List (String × Json))

/-- A Python exception as the module observes one: a `KeyError` carrying
`str(e)` (the repr of the missing key), or any other exception carrying its
message. `requests.exceptions.RequestException` is a separate constructor of
`AttemptOutcome` because the executor catches it separately. -/
inductive PyErr where
  | keyError (reprStr : String)
  | otherError (msg : String)

/-- `repr` of a string key, which is what `str(KeyError(key))` shows. -/
def pyKeyRepr (key : String) : String := "'" ++ key ++ "'"

/-- First value bound to `key` in an object's field list (Python dict lookup;
the bodies considered have unique keys, so first = only). -/
def jLookup : List (String × Json) → String → Option Json
  | [], _ => none
  | (k, v) :: rest, key => if k = key then some v else jLookup rest key

/-- Python `d[key]` for a string key: dict lookup raising `KeyError` on a
missing key, `TypeError` on a list, string or int receiver. -/
def pySubscriptKey (v : Json) (key : String) : Except PyErr Json :=
  match v with
  | .obj fields =>
    match jLookup fields key with
    | some w => .ok w
    | none => .error (.keyError (pyKeyRepr key))
  | .arr _ => .error (.otherError "list indices must be integers or slices, not str")
  | .str _ => .error (.otherError "string indices must be integers")
  | .num _ => .error (.otherError "int object is not subscriptable")

/-- Python `v[i]` for an int index: list indexing raising `IndexError` out of
range, one-character string on a string, `KeyError` on a dict whose keys are
all strings, `TypeError` on an int. -/
def pySubscriptNat (v : Json) (i : Nat) : Except PyErr Json :=
  match v with
  | .arr xs =>
    match xs.get? i with
    | some w => .ok w
    | none => .error (.otherError "list index out of range")
  | .str s =>
    match s.data.get? i with
    | some c => .ok (.str (String.mk [c]))
    | none => .error (.otherError "string index out of range")
  | .obj _ => .error (.keyError (toString i))
  | .num _ => .error (.otherError "int object is not subscriptable")

/-- Membership of the string `key` in a list of JSON values: Python compares
`key == element`, true only for an equal string element. -/
def strMemList (key : String) : List Json → Bool
  | [] => false
  | .str s :: rest => s = key || strMemList key rest
  | _ :: rest => strMemList key rest

/-- `needle` occurs as a contiguous substring of `hay`. -/
def isSubstr (needle hay : String) : Bool := decide (needle.data <:+: hay.data)

/-- Python `key in v` for a string `key`: key membership on a dict, element
membership on a list, substring on a string, `TypeError` on an int. -/
def pyContains (v : Json) (key : String) : Except PyErr Bool :=
  match v with
  | .obj fields => .ok (jLookup fields key).isSome
  | .arr xs => .ok (strMemList key xs)
  | .str s => .ok (isSubstr key s)
  | .num _ => .error (.otherError "argument of type int is not iterable")

/-- Python `s.strip()` on a string: drop leading and trailing whitespace.
(Defined over the character list so that it evaluates by kernel reduction.) -/
def stripStr (s : String) : String :=
  String.mk (((s.data.dropWhile Char.isWhitespace).reverse.dropWhile Char.isWhitespace).reverse)

/-- Python `v.strip()`: whitespace-trims a string, `AttributeError` on any
other value. -/
def pyStrip (v : Json) : Except PyErr String :=
  match v with
  | .str s => .ok (stripStr s)
  | _ => .error (.otherError "object has no attribute strip")

/-- The client state the rate limiter reads and writes: the model clock
(what `time.time()` returns; sleeping advances it by the slept duration) and
the `last_request_time` attribute. -/
structure ClientState where
  clock : ℚ
  last_request_time : ℚ
deriving Repr, DecidableEq

/-- `self.min_request_interval`: minimum 2 seconds between requests. -/
def min_request_interval : ℚ := 2

/-- `_rate_limit_protection`: reads the current time, and if less than
`min_request_interval` has elapsed since `last_request_time`, sleeps the
remaining difference; then records a fresh `time.time()` reading as the new
`last_request_time`. Returns the duration slept (0 when none) and the new
state. -/
def rate_limit_protection (st : ClientState) : ℚ × ClientState :=
  let current_time := st.clock
  let time_since_last := current_time - st.last_request_time
  if time_since_last < min_request_interval then
    let sleep_time := min_request_interval - time_since_last
    let t := current_time + sleep_time
    (sleep_time, { clock := t, last_request_time := t })
  else
    (0, { clock := current_time, last_request_time := current_time })

/-- `time.sleep d` at executor level: the clock advances by `d`. -/
def advanceClock (st : ClientState) (d : ℚ) : ClientState :=
  { st with clock := st.clock + d }

/-- One role-tagged chat message of the request body. -/
structure ChatMessage where
  role : String
  content : String

/-- The JSON request body the operations build:
`{model, messages, max_tokens, temperature}`. -/
structure Payload where
  model : String
  messages : List ChatMessage
  max_tokens : Nat
  temperature : ℚ

/-- What `requests.post(...)` produces on one attempt: an HTTP response with
a status code and parsed JSON body, a `requests.exceptions.RequestException`
(connection error, timeout) with its message, or any other exception. -/
inductive AttemptOutcome where
  | resp (status : Nat) (body : Json)
  | reqExc (msg : String)
  | otherExc (msg : String)

/-- The dict `{"error": msg}` the executor returns on failure. -/
def errorDict (msg : String) : Json := .obj [("error", .str msg)]

/-- Model of `str(e)` for the `HTTPError` that `raise_for_status` raises on
a 4xx or 5xx status. The exact text comes from the requests library; only
its presence after the fixed prefix matters to the module. -/
def httpErrorMessage (status : Nat) : String := toString status ++ " Error"

/-- What one run of the executor produced: the returned dict, how many
attempts were made, the backoff sleeps performed between attempts (the rate
limiter's own sleeps show up in the clock only), the final client state, and
whether the final fall-through return after the loop was reached. -/
structure RunResult where
  result : Json
  attempts : Nat
  backoffSleeps : List Nat
  finalState : ClientState
  exhausted : Bool

/-- The loop body of `_make_api_request`, from attempt index `attempt` with
accumulated backoff-sleep log `sleeps`. Each iteration applies the rate
limiter, then inspects the attempt's outcome: a 429 status sleeps
`min 60 (2 ^ attempt * 5)` and retries while attempts remain, else returns
the rate-limited error dict; `raise_for_status` turns a 4xx/5xx status into
a `RequestException`, which (like one from `post` itself) sleeps
`2 ^ attempt` and retries while attempts remain, else returns the
connection-error dict; any other exception returns the unexpected-error dict
at once; a remaining response returns its parsed body. Falling out of the
loop returns the max-retries dict with `exhausted := true`. -/
def make_api_request_loop (post : Nat → AttemptOutcome) (max_retries : Nat)
    (attempt : Nat) (st : ClientState) (sleeps : List Nat) : RunResult :=
  if h : attempt < max_retries then
    let st1 := (rate_limit_protection st).2
    match post attempt with
    | .resp status body =>
      if status = 429 then
        let wait_time : Nat := min 60 (2 ^ attempt * 5)
        if h2 : attempt < max_retries - 1 then
          make_api_request_loop post max_retries (attempt + 1)
            (advanceClock st1 (wait_time : ℚ)) (sleeps ++ [wait_time])
        else
          { result := errorDict ("Rate limited. Please wait " ++ toString wait_time
              ++ " seconds and try again."),
            attempts := attempt + 1, backoffSleeps := sleeps,
            finalState := st1, exhausted := false }
      else if 400 ≤ status ∧ status < 600 then
        if h2 : attempt < max_retries - 1 then
          make_api_request_loop post max_retries (attempt + 1)
            (advanceClock st1 ((2 ^ attempt : Nat) : ℚ)) (sleeps ++ [2 ^ attempt])
        else
          { result := errorDict ("Error connecting to ChatGPT API: "
              ++ httpErrorMessage status),
            attempts := attempt + 1, backoffSleeps := sleeps,
            finalState := st1, exhausted := false }
      else
        { result := body, attempts := attempt + 1, backoffSleeps := sleeps,
          finalState := st1, exhausted := false }
    | .reqExc msg =>
      if h2 : attempt < max_retries - 1 then
        make_api_request_loop post max_retries (attempt + 1)
          (advanceClock st1 ((2 ^ attempt : Nat) : ℚ)) (sleeps ++ [2 ^ attempt])
      else
        { result := errorDict ("Error connecting to ChatGPT API: " ++ msg),
          attempts := attempt + 1, backoffSleeps := sleeps,
          finalState := st1, exhausted := false }
    | .otherExc msg =>
      { result := errorDict ("Unexpected error: " ++ msg),
        attempts := attempt + 1, backoffSleeps := sleeps,
        finalState := st1, exhausted := false }
  else
    { result := errorDict "Max retries exceeded", attempts := attempt,
      backoffSleeps := sleeps, finalState := st, exhausted := true }
termination_by max_retries - attempt
decreasing_by all_goals omega

/-- `_make_api_request(payload, max_retries)`: run the loop from attempt 0. -/
def make_api_request (network : Payload → Nat → AttemptOutcome)
    (payload : Payload) (max_retries : Nat) (st : ClientState) : RunResult :=
  make_api_request_loop (network payload) max_retries 0 st []

/-- The intensity band of `enhance_prompt`:
`(enhancement_level, detail_multiplier)` from `enhancement_percentage`. -/
def enhanceLevelAndMultiplier (enhancement_percentage : Int) : String × String :=
  if enhancement_percentage ≤ 30 then ("subtle", "1.2-1.5x")
  else if enhancement_percentage ≤ 60 then ("moderate", "1.5-2x")
  else if enhancement_percentage ≤ 80 then ("strong", "2-2.5x")
  else ("maximum", "2.5-3x")

/-- The intensity band of `improve_image_prompt`:
`(enhancement_level, improvement_focus)` from `enhancement_percentage`. -/
def improveLevelAndFocus (enhancement_percentage : Int) : String × String :=
  if enhancement_percentage ≤ 30 then ("subtle", "minor adjustments")
  else if enhancement_percentage ≤ 60 then ("moderate", "balanced improvements")
  else if enhancement_percentage ≤ 80 then ("strong", "significant enhancements")
  else ("maximum", "major improvements")

/-- The system message `enhance_prompt` builds. -/
def enhanceSystemPrompt (enhancement_level : String) (enhancement_percentage : Int)
    (detail_multiplier : String) (style_preference : String) : String :=
  s!"You are an expert AI image generation prompt engineer. Your task is to enhance user prompts to create better, more detailed, and more effective prompts for AI image generation.

Enhancement Level: {enhancement_level} ({enhancement_percentage}%)
Detail Multiplier: {detail_multiplier}

Guidelines:
1. Add specific details about lighting, composition, and mood
2. Include technical photography terms when appropriate
3. Specify art style, medium, and quality descriptors
4. Add environmental and atmospheric details
5. Keep the core concept but make it more vivid and descriptive
6. Use comma-separated tags for better AI model understanding
7. Enhancement intensity: {enhancement_level} - aim for {detail_multiplier} more detailed than the original
8. Style preference: {style_preference}

Examples:
- \"cat\" → \"beautiful orange tabby cat, sitting gracefully on a windowsill, soft natural lighting, detailed fur texture, photorealistic, high quality, 8K resolution\"
- \"landscape\" → \"breathtaking mountain landscape at sunset, golden hour lighting, dramatic clouds, lush green valleys, photorealistic, cinematic composition, high detail\"

Enhance this prompt with {enhancement_level} intensity while keeping the original intent:"

/-- The user message `enhance_prompt` builds. -/
def enhanceUserPrompt (original_prompt : String) : String :=
  s!"Original prompt: '{original_prompt}'\n\nPlease enhance this prompt for better AI image generation results."

/-- The system message `improve_image_prompt` builds. -/
def improveSystemPrompt (enhancement_level : String) (enhancement_percentage : Int)
    (improvement_focus : String) : String :=
  s!"You are an expert AI image generation prompt engineer. Your task is to analyze the original prompt and suggest improvements for generating a better version of the image.

Enhancement Level: {enhancement_level} ({enhancement_percentage}%)
Improvement Focus: {improvement_focus}

Guidelines:
1. Identify what might be missing from the original prompt
2. Suggest better lighting, composition, or style descriptions
3. Add technical details that could improve quality
4. Consider different artistic approaches or perspectives
5. Suggest specific improvements for better visual impact
6. Keep the core concept but enhance the execution
7. Provide 2-3 alternative improved prompts
8. Enhancement intensity: {enhancement_level} - focus on {improvement_focus}

Focus on making the prompt more effective for AI image generation with {enhancement_level} intensity."

/-- The user message `improve_image_prompt` builds. -/
def improveUserPrompt (original_prompt : String)
    (generated_image_description : String) : String :=
  s!"Original prompt: '{original_prompt}'
Generated image description: '{generated_image_description}'

Please suggest improvements to create a better version of this image. Provide specific, actionable improvements to the prompt."

/-- The system message `generate_alternative_prompt` builds. -/
def alternativeSystemPrompt (variation_type : String) : String :=
  s!"You are a creative AI image generation prompt engineer. Create alternative prompts that explore different artistic interpretations of the original concept.

Guidelines:
1. Keep the core subject/concept
2. Explore different artistic styles, moods, or perspectives
3. Vary lighting, composition, and atmosphere
4. Consider different art movements or techniques
5. Create prompts that would generate visually distinct but related images
6. Variation type: {variation_type}

Provide 3 creative alternative prompts that explore different artistic directions."

/-- The user message `generate_alternative_prompt` builds. -/
def alternativeUserPrompt (original_prompt : String) : String :=
  s!"Original prompt: '{original_prompt}'\n\nCreate creative alternative prompts for different artistic interpretations."

/-- The response handling each operation performs after the executor returns
`result`: `if \x7b..\x7d error in result: return result[error]`, else extract
`result[choices][0][message][content].strip()`; the value or the raised
exception. -/
def extractContent (result : Json) : Except PyErr Json :=
  match pyContains result "error" with
  | .error e => .error e
  | .ok true => pySubscriptKey result "error"
  | .ok false =>
    match pySubscriptKey result "choices" with
    | .error e => .error e
    | .ok choices =>
      match pySubscriptNat choices 0 with
      | .error e => .error e
      | .ok first =>
        match pySubscriptKey first "message" with
        | .error e => .error e
        | .ok message =>
          match pySubscriptKey message "content" with
          | .error e => .error e
          | .ok content =>
            match pyStrip content with
            | .error e => .error e
            | .ok s => .ok (.str s)

/-- The two handlers each operation ends with: `except KeyError as e`
returns the parse-error string, `except Exception as e` the
unexpected-error string; a normal value passes through. -/
def handleParse (r : Except PyErr Json) : Json :=
  match r with
  | .ok v => v
  | .error (.keyError reprStr) => .str ("Error parsing ChatGPT response: " ++ reprStr)
  | .error (.otherError msg) => .str ("Unexpected error: " ++ msg)

/-- What one operation call produced: its Python return value (a string in
every path the module itself builds) and the executor run, `none` when the
blank-prompt guard returned before any request was made. -/
structure OpResult where
  output : Json
  run : Option RunResult

/-- `enhance_prompt(original_prompt, style_preference, enhancement_percentage)`. -/
def enhance_prompt (network : Payload → Nat → AttemptOutcome) (st : ClientState)
    (original_prompt : String) (style_preference : String)
    (enhancement_percentage : Int) : OpResult :=
  if stripStr original_prompt = "" then
    { output := .str "Please enter a prompt to enhance.", run := none }
  else
    let lv := enhanceLevelAndMultiplier enhancement_percentage
    let system_prompt :=
      enhanceSystemPrompt lv.1 enhancement_percentage lv.2 style_preference
    let user_prompt := enhanceUserPrompt original_prompt
    let payload : Payload :=
      { model := "gpt-3.5-turbo",
        messages := [⟨"system", system_prompt⟩, ⟨"user", user_prompt⟩],
        max_tokens := 500, temperature := 7 / 10 }
    let run := make_api_request network payload 3 st
    { output := handleParse (extractContent run.result), run := some run }

/-- `improve_image_prompt(original_prompt, generated_image_description,
enhancement_percentage)`. -/
def improve_image_prompt (network : Payload → Nat → AttemptOutcome) (st : ClientState)
    (original_prompt : String) (generated_image_description : String)
    (enhancement_percentage : Int) : OpResult :=
  if stripStr original_prompt = "" then
    { output := .str "Please provide the original prompt to improve.", run := none }
  else
    let lv := improveLevelAndFocus enhancement_percentage
    let system_prompt := improveSystemPrompt lv.1 enhancement_percentage lv.2
    let user_prompt := improveUserPrompt original_prompt generated_image_description
    let payload : Payload :=
      { model := "gpt-3.5-turbo",
        messages := [⟨"system", system_prompt⟩, ⟨"user", user_prompt⟩],
        max_tokens := 600, temperature := 8 / 10 }
    let run := make_api_request network payload 3 st
    { output := handleParse (extractContent run.result), run := some run }

/-- `generate_alternative_prompt(original_prompt, variation_type)`. -/
def generate_alternative_prompt (network : Payload → Nat → AttemptOutcome)
    (st : ClientState) (original_prompt : String) (variation_type : String) : OpResult :=
  if stripStr original_prompt = "" then
    { output := .str "Please provide a prompt to create variations.", run := none }
  else
    let system_prompt := alternativeSystemPrompt variation_type
    let user_prompt := alternativeUserPrompt original_prompt
    let payload : Payload :=
      { model := "gpt-3.5-turbo",
        messages := [⟨"system", system_prompt⟩, ⟨"user", user_prompt⟩],
        max_tokens := 500, temperature := 9 / 10 }
    let run := make_api_request network payload 3 st
    { output := handleParse (extractContent run.result), run := some run }

/-- The response body `{choices: [{message: {content: x}}]}` of a successful
chat completion. -/
def goodBody (x : String) : Json :=
  .obj [("choices", .arr [.obj [("message", .obj [("content", .str x)])]])]

/-- The attempt outcomes the executor's `RequestException` handler catches:
an exception from `post` itself (connection error, timeout), or a 4xx/5xx
status other than 429 that `raise_for_status` turns into an `HTTPError`.
`some` carries `str(e)`. -/
def transportFailureMsg : AttemptOutcome → Option String
  | .resp status _ =>
    if status = 429 then none
    else if 400 ≤ status ∧ status < 600 then some (httpErrorMessage status)
    else none
  | .reqExc msg => some msg
  | .otherExc _ => none

/-- A concrete request body used to instantiate theorems at closed inputs. -/
def testPayload : Payload :=
  { model := "gpt-3.5-turbo", messages := [], max_tokens := 500, temperature := 7 / 10 }

/-- A network oracle that answers HTTP 429 with an empty object body on
every attempt of every request. -/
def net429 : Payload → Nat → AttemptOutcome := fun _ _ => .resp 429 (Json.obj [])

/-- A network oracle that raises a connection error on every attempt. -/
def netConnFail : Payload → Nat → AttemptOutcome := fun _ _ => .reqExc "Connection refused"

/-- A network oracle that answers 200 with the given body on every attempt. -/
def netOk (body : Json) : Payload → Nat → AttemptOutcome := fun _ _ => .resp 200 body

/- ------------------------------------------------------------------ -/
/- Theorems -/
/- ------------------------------------------------------------------ -/

/-- Helper for the executor's fall-through return: starting the loop at any
attempt index below the retry ceiling, some branch inside the loop returns,
so the fall-through `Max retries exceeded` return is never reached. -/
theorem make_api_request_loop_not_exhausted (post : Nat → AttemptOutcome)
    (max_retries : Nat) :
    ∀ k attempt st sleeps, max_retries - attempt = k → attempt < max_retries →
      (make_api_request_loop post max_retries attempt st sleeps).exhausted = false := by
  intro k
  induction k with
  | zero => intro attempt st sleeps hk hlt; omega
  | succ n ih =>
    intro attempt st sleeps hk hlt
    rw [make_api_request_loop, dif_pos hlt]
    cases hpost : post attempt with
    | resp status body =>
      simp only
      split_ifs with h429 hrem hhttp hrem2
      · exact ih (attempt + 1) _ _ (by omega) (by omega)
      · rfl
      · exact ih (attempt + 1) _ _ (by omega) (by omega)
      · rfl
      · rfl
    | reqExc msg =>
      simp only
      split_ifs with hrem
      · exact ih (attempt + 1) _ _ (by omega) (by omega)
      · rfl
    | otherExc msg => rfl

/-- C9: the request executor's final fallback returning the
`Max retries exceeded` error dict is unreachable at the default retry
ceiling of 3: for every network behaviour, request body and client state,
the result is produced by a return inside the loop (`exhausted = false`),
because on the last attempt every branch returns. -/
theorem max_retries_fallback_unreachable (network : Payload → Nat → AttemptOutcome)
    (payload : Payload) (st : ClientState) :
    (make_api_request network payload 3 st).exhausted = false :=
  make_api_request_loop_not_exhausted (network payload) 3 3 0 st [] rfl (by omega)

/-- C2: the rate limiter computes the elapsed time since the recorded
`last_request_time`; when that is below the 2-unit minimum interval it
sleeps exactly the remaining difference (else not at all), and in all cases
it records the moment after the wait as the new `last_request_time`, which
therefore lies at least `min_request_interval` after the previously
recorded one: consecutive dispatches are at least 2 time units apart. -/
theorem rate_limiter_enforces_min_interval (st : ClientState) :
    (rate_limit_protection st).1 =
      (if st.clock - st.last_request_time < min_request_interval
        then min_request_interval - (st.clock - st.last_request_time) else 0) ∧
    (rate_limit_protection st).2.last_request_time = (rate_limit_protection st).2.clock ∧
    st.last_request_time + min_request_interval ≤
      (rate_limit_protection st).2.last_request_time := by
  simp only [rate_limit_protection]
  split_ifs with h
  · exact ⟨rfl, rfl, by simp only; linarith⟩
  · exact ⟨rfl, rfl, by simp only; linarith [not_lt.mp h]⟩

/-- C4: an attempt that raises an exception that is neither the 429 branch
nor a `RequestException` makes the executor return the unexpected-error
dict at once: no backoff sleep is appended, no further attempt is made,
whatever number of attempts remains below the ceiling. -/
theorem unexpected_error_returns_immediately (post : Nat → AttemptOutcome)
    (max_retries attempt : Nat) (st : ClientState) (sleeps : List Nat) (msg : String)
    (hpost : post attempt = .otherExc msg) (hlt : attempt < max_retries) :
    make_api_request_loop post max_retries attempt st sleeps =
      { result := errorDict ("Unexpected error: " ++ msg),
        attempts := attempt + 1, backoffSleeps := sleeps,
        finalState := (rate_limit_protection st).2, exhausted := false } := by
  rw [make_api_request_loop, dif_pos hlt, hpost]

/-- C3: an attempt failing at transport level (connection error, timeout,
or a 4xx/5xx status other than 429 raised by `raise_for_status`) makes the
executor sleep exactly `2 ^ attempt` time units and retry when attempts
remain, and on the final attempt return the generic connection-error dict
built from the exception's message. -/
theorem transport_failure_backoff_and_final_error (post : Nat → AttemptOutcome)
    (max_retries attempt : Nat) (st : ClientState) (sleeps : List Nat) (msg : String)
    (hf : transportFailureMsg (post attempt) = some msg)
    (hlt : attempt < max_retries) :
    (attempt < max_retries - 1 →
      make_api_request_loop post max_retries attempt st sleeps =
        make_api_request_loop post max_retries (attempt + 1)
          (advanceClock (rate_limit_protection st).2 ((2 ^ attempt : Nat) : ℚ))
          (sleeps ++ [2 ^ attempt])) ∧
    (attempt = max_retries - 1 →
      make_api_request_loop post max_retries attempt st sleeps =
        { result := errorDict ("Error connecting to ChatGPT API: " ++ msg),
          attempts := attempt + 1, backoffSleeps := sleeps,
          finalState := (rate_limit_protection st).2, exhausted := false }) := by
  cases hpost : post attempt with
  | resp status body =>
    rw [hpost] at hf
    simp only [transportFailureMsg] at hf
    split_ifs at hf with h429 hhttp
    · injection hf with hmsg
      subst hmsg
      constructor
      · intro hrem
        rw [make_api_request_loop, dif_pos hlt, hpost]
        simp only [if_neg h429, if_pos hhttp, dif_pos hrem]
      · intro hlast
        rw [make_api_request_loop, dif_pos hlt, hpost]
        simp only [if_neg h429, if_pos hhttp, dif_neg (by omega : ¬ attempt < max_retries - 1)]
  | reqExc m =>
    rw [hpost] at hf
    simp only [transportFailureMsg, Option.some.injEq] at hf
    subst hf
    constructor
    · intro hrem
      rw [make_api_request_loop, dif_pos hlt, hpost]
      simp only [dif_pos hrem]
    · intro hlast
      rw [make_api_request_loop, dif_pos hlt, hpost]
      simp only [dif_neg (by omega : ¬ attempt < max_retries - 1)]
  | otherExc m =>
    rw [hpost] at hf
    exact absurd hf (by simp [transportFailureMsg])

/-- C1: when the endpoint answers HTTP 429 on all three attempts, the
executor makes exactly 3 attempts, sleeps `min 60 (5 * 2 ^ i)` time units
after attempt `i` while attempts remain (so 5 then 10), and on the final
attempt returns the rate-limited error dict naming the wait
`min 60 (5 * 2 ^ 2) = 20` instead of raising. -/
theorem rate_limited_three_attempts_capped_backoff
    (network : Payload → Nat → AttemptOutcome) (payload : Payload) (st : ClientState)
    (h : ∀ i, i < 3 → ∃ body, network payload i = .resp 429 body) :
    (make_api_request network payload 3 st).attempts = 3 ∧
    (make_api_request network payload 3 st).backoffSleeps =
      [min 60 (5 * 2 ^ 0), min 60 (5 * 2 ^ 1)] ∧
    (make_api_request network payload 3 st).result =
      errorDict ("Rate limited. Please wait " ++ toString (min 60 (5 * 2 ^ 2))
        ++ " seconds and try again.") ∧
    (make_api_request network payload 3 st).exhausted = false := by
  obtain ⟨b0, h0⟩ := h 0 (by omega)
  obtain ⟨b1, h1⟩ := h 1 (by omega)
  obtain ⟨b2, h2⟩ := h 2 (by omega)
  refine ⟨?_, ?_, ?_, ?_⟩ <;>
    simp [make_api_request, make_api_request_loop, h0, h1, h2]

/-- C5: the intensity value 0–100 handed to `enhance_prompt` and
`improve_image_prompt` selects the band subtle when at most 30, moderate
on 31–60, strong on 61–80 and maximum above, all boundaries inclusive as
listed; in particular 0, 30, 31, 60, 61, 80, 81, 100 map to subtle,
subtle, moderate, moderate, strong, strong, maximum, maximum in both
operations. -/
theorem intensity_band_boundaries (p : Int) :
    ((p ≤ 30 → (enhanceLevelAndMultiplier p).1 = "subtle" ∧
        (improveLevelAndFocus p).1 = "subtle") ∧
      (31 ≤ p ∧ p ≤ 60 → (enhanceLevelAndMultiplier p).1 = "moderate" ∧
        (improveLevelAndFocus p).1 = "moderate") ∧
      (61 ≤ p ∧ p ≤ 80 → (enhanceLevelAndMultiplier p).1 = "strong" ∧
        (improveLevelAndFocus p).1 = "strong") ∧
      (81 ≤ p → (enhanceLevelAndMultiplier p).1 = "maximum" ∧
        (improveLevelAndFocus p).1 = "maximum")) ∧
    ((enhanceLevelAndMultiplier 0).1 = "subtle" ∧ (improveLevelAndFocus 0).1 = "subtle") ∧
    ((enhanceLevelAndMultiplier 30).1 = "subtle" ∧ (improveLevelAndFocus 30).1 = "subtle") ∧
    ((enhanceLevelAndMultiplier 31).1 = "moderate" ∧ (improveLevelAndFocus 31).1 = "moderate") ∧
    ((enhanceLevelAndMultiplier 60).1 = "moderate" ∧ (improveLevelAndFocus 60).1 = "moderate") ∧
    ((enhanceLevelAndMultiplier 61).1 = "strong" ∧ (improveLevelAndFocus 61).1 = "strong") ∧
    ((enhanceLevelAndMultiplier 80).1 = "strong" ∧ (improveLevelAndFocus 80).1 = "strong") ∧
    ((enhanceLevelAndMultiplier 81).1 = "maximum" ∧ (improveLevelAndFocus 81).1 = "maximum") ∧
    ((enhanceLevelAndMultiplier 100).1 = "maximum" ∧ (improveLevelAndFocus 100).1 = "maximum") := by
  refine ⟨⟨fun hp => ?_, fun hp => ?_, fun hp => ?_, fun hp => ?_⟩, by decide⟩ <;>
    simp only [enhanceLevelAndMultiplier, improveLevelAndFocus] <;>
    split_ifs <;> simp_all <;> omega

/-- C6: a prompt that is empty or consists only of whitespace makes each of
the three operations return its fixed guidance string with no executor run
(`run = none`): neither the request executor nor the rate limiter is
invoked and the client state is untouched. -/
theorem blank_prompt_guidance_no_request (network : Payload → Nat → AttemptOutcome)
    (st : ClientState) (prompt style desc vtype : String) (pct : Int)
    (h : stripStr prompt = "") :
    enhance_prompt network st prompt style pct =
      { output := .str "Please enter a prompt to enhance.", run := none } ∧
    improve_image_prompt network st prompt desc pct =
      { output := .str "Please provide the original prompt to improve.", run := none } ∧
    generate_alternative_prompt network st prompt vtype =
      { output := .str "Please provide a prompt to create variations.", run := none } := by
  refine ⟨?_, ?_, ?_⟩ <;>
    simp [enhance_prompt, improve_image_prompt, generate_alternative_prompt, h]

/-- C7: when the endpoint delivers a successful response whose body holds
`choices[0].message.content = x`, each of the three operations returns
exactly `x` with surrounding whitespace stripped, and nothing else. -/
theorem success_returns_trimmed_content (network : Payload → Nat → AttemptOutcome)
    (st : ClientState) (prompt style desc vtype : String) (pct : Int) (x : String)
    (hp : ¬ stripStr prompt = "")
    (hnet : ∀ payload, network payload 0 = .resp 200 (goodBody x)) :
    (enhance_prompt network st prompt style pct).output = .str (stripStr x) ∧
    (improve_image_prompt network st prompt desc pct).output = .str (stripStr x) ∧
    (generate_alternative_prompt network st prompt vtype).output = .str (stripStr x) := by
  refine ⟨?_, ?_, ?_⟩ <;>
    simp [enhance_prompt, improve_image_prompt, generate_alternative_prompt, hp,
      make_api_request, make_api_request_loop, hnet, goodBody, extractContent,
      handleParse, pyContains, pySubscriptKey, pySubscriptNat, pyStrip, jLookup]

/-- C8: a successful response whose dict body lacks the `choices` field (and
carries no `error` field either) makes each operation return the descriptive
parse-error string built from the caught `KeyError` instead of propagating
an exception, and the executor run made exactly one attempt: the malformed
body is not retried. -/
theorem missing_choices_parse_error (network : Payload → Nat → AttemptOutcome)
    (st : ClientState) (prompt style desc vtype : String) (pct : Int)
    (fields : List (String × Json))
    (hp : ¬ stripStr prompt = "")
    (hnet : ∀ payload, network payload 0 = .resp 200 (.obj fields))
    (herr : jLookup fields "error" = none)
    (hch : jLookup fields "choices" = none) :
    ((enhance_prompt network st prompt style pct).output =
        .str ("Error parsing ChatGPT response: " ++ pyKeyRepr "choices") ∧
      (enhance_prompt network st prompt style pct).run.map RunResult.attempts = some 1) ∧
    ((improve_image_prompt network st prompt desc pct).output =
        .str ("Error parsing ChatGPT response: " ++ pyKeyRepr "choices") ∧
      (improve_image_prompt network st prompt desc pct).run.map RunResult.attempts = some 1) ∧
    ((generate_alternative_prompt network st prompt vtype).output =
        .str ("Error parsing ChatGPT response: " ++ pyKeyRepr "choices") ∧
      (generate_alternative_prompt network st prompt vtype).run.map RunResult.attempts = some 1) := by
  refine ⟨⟨?_, ?_⟩, ⟨?_, ?_⟩, ⟨?_, ?_⟩⟩ <;>
    simp [enhance_prompt, improve_image_prompt, generate_alternative_prompt, hp,
      make_api_request, make_api_request_loop, hnet, extractContent,
      handleParse, pyContains, pySubscriptKey, herr, hch]

/-- C10: a successful (2xx) delivery whose dict body binds the `error` key
to a string makes each operation return that string as its output, exactly
the value `handleParse` and `extractContent` give an executor-produced
error dict with the same message, so such a server payload is not
distinguishable at the operation interface from an executor failure. -/
theorem server_error_payload_passthrough (network : Payload → Nat → AttemptOutcome)
    (st : ClientState) (prompt style desc vtype : String) (pct : Int)
    (fields : List (String × Json)) (m : String)
    (hp : ¬ stripStr prompt = "")
    (hnet : ∀ payload, network payload 0 = .resp 200 (.obj fields))
    (hv : jLookup fields "error" = some (.str m)) :
    (enhance_prompt network st prompt style pct).output = .str m ∧
    (improve_image_prompt network st prompt desc pct).output = .str m ∧
    (generate_alternative_prompt network st prompt vtype).output = .str m ∧
    handleParse (extractContent (errorDict m)) = .str m := by
  refine ⟨?_, ?_, ?_, ?_⟩ <;>
    simp [enhance_prompt, improve_image_prompt, generate_alternative_prompt, hp,
      make_api_request, make_api_request_loop, hnet, extractContent,
      handleParse, pyContains, pySubscriptKey, hv, errorDict, jLookup]

/-- Witness for the all-429 run: the hypotheses of
`rate_limited_three_attempts_capped_backoff` hold at the concrete oracle
`net429` and the conclusions follow by applying it there. -/
theorem rate_limited_three_attempts_capped_backoff_witness :
    (∀ i, i < 3 → ∃ body, net429 testPayload i = AttemptOutcome.resp 429 body) ∧
    ((make_api_request net429 testPayload 3 ⟨0, 0⟩).attempts = 3 ∧
      (make_api_request net429 testPayload 3 ⟨0, 0⟩).backoffSleeps =
        [min 60 (5 * 2 ^ 0), min 60 (5 * 2 ^ 1)] ∧
      (make_api_request net429 testPayload 3 ⟨0, 0⟩).result =
        errorDict ("Rate limited. Please wait " ++ toString (min 60 (5 * 2 ^ 2))
          ++ " seconds and try again.") ∧
      (make_api_request net429 testPayload 3 ⟨0, 0⟩).exhausted = false) :=
  ⟨fun _ _ => ⟨Json.obj [], rfl⟩,
    rate_limited_three_attempts_capped_backoff net429 testPayload ⟨0, 0⟩
      (fun _ _ => ⟨Json.obj [], rfl⟩)⟩

/-- Witness for the transport-failure step: the hypotheses of
`transport_failure_backoff_and_final_error` hold for a connection error on
attempt 0 of 3 and the conclusions follow by applying it there. -/
theorem transport_failure_backoff_and_final_error_witness :
    (transportFailureMsg (netConnFail testPayload 0) = some "Connection refused" ∧
      0 < 3) ∧
    ((0 < 3 - 1 →
      make_api_request_loop (netConnFail testPayload) 3 0 ⟨0, 0⟩ [] =
        make_api_request_loop (netConnFail testPayload) 3 (0 + 1)
          (advanceClock (rate_limit_protection ⟨0, 0⟩).2 ((2 ^ 0 : Nat) : ℚ))
          ([] ++ [2 ^ 0])) ∧
    (0 = 3 - 1 →
      make_api_request_loop (netConnFail testPayload) 3 0 ⟨0, 0⟩ [] =
        { result := errorDict ("Error connecting to ChatGPT API: " ++ "Connection refused"),
          attempts := 0 + 1, backoffSleeps := [],
          finalState := (rate_limit_protection ⟨0, 0⟩).2, exhausted := false })) :=
  ⟨⟨rfl, by omega⟩,
    transport_failure_backoff_and_final_error (netConnFail testPayload) 3 0 ⟨0, 0⟩ []
      "Connection refused" rfl (by omega)⟩

/-- Witness for the immediate unexpected-error return: the hypotheses of
`unexpected_error_returns_immediately` hold for an attempt-1 failure below
the ceiling 3 and the conclusion follows by applying it there. -/
theorem unexpected_error_returns_immediately_witness :
    ((fun _ => AttemptOutcome.otherExc "Invalid JSON") 1 = AttemptOutcome.otherExc "Invalid JSON" ∧
      1 < 3) ∧
    make_api_request_loop (fun _ => AttemptOutcome.otherExc "Invalid JSON") 3 1 ⟨0, 0⟩ [5] =
      { result := errorDict ("Unexpected error: " ++ "Invalid JSON"),
        attempts := 1 + 1, backoffSleeps := [5],
        finalState := (rate_limit_protection ⟨0, 0⟩).2, exhausted := false } :=
  ⟨⟨rfl, by omega⟩,
    unexpected_error_returns_immediately (fun _ => AttemptOutcome.otherExc "Invalid JSON")
      3 1 ⟨0, 0⟩ [5] "Invalid JSON" rfl (by omega)⟩

/-- Witness for the blank-prompt guard: the hypothesis of
`blank_prompt_guidance_no_request` holds for a whitespace-only prompt and
the conclusions follow by applying it there. -/
theorem blank_prompt_guidance_no_request_witness :
    stripStr "   " = "" ∧
    (enhance_prompt (netOk (Json.obj [])) ⟨0, 0⟩ "   " "photorealistic" 50 =
      { output := .str "Please enter a prompt to enhance.", run := none } ∧
    improve_image_prompt (netOk (Json.obj [])) ⟨0, 0⟩ "   " "" 50 =
      { output := .str "Please provide the original prompt to improve.", run := none } ∧
    generate_alternative_prompt (netOk (Json.obj [])) ⟨0, 0⟩ "   " "creative" =
      { output := .str "Please provide a prompt to create variations.", run := none }) :=
  ⟨by decide,
    blank_prompt_guidance_no_request (netOk (Json.obj [])) ⟨0, 0⟩ "   "
      "photorealistic" "" "creative" 50 (by decide)⟩

/-- Witness for the successful-content extraction: the hypotheses of
`success_returns_trimmed_content` hold for the body carrying content
`" X "` and the conclusions follow by applying it there. -/
theorem success_returns_trimmed_content_witness :
    (¬ stripStr "a cat" = "" ∧
      (∀ payload, netOk (goodBody " X ") payload 0 = AttemptOutcome.resp 200 (goodBody " X "))) ∧
    ((enhance_prompt (netOk (goodBody " X ")) ⟨0, 0⟩ "a cat" "photorealistic" 50).output =
        .str (stripStr " X ") ∧
      (improve_image_prompt (netOk (goodBody " X ")) ⟨0, 0⟩ "a cat" "" 50).output =
        .str (stripStr " X ") ∧
      (generate_alternative_prompt (netOk (goodBody " X ")) ⟨0, 0⟩ "a cat" "creative").output =
        .str (stripStr " X ")) :=
  ⟨⟨by decide, fun _ => rfl⟩,
    success_returns_trimmed_content (netOk (goodBody " X ")) ⟨0, 0⟩ "a cat"
      "photorealistic" "" "creative" 50 " X " (by decide) (fun _ => rfl)⟩

/-- Witness for the missing-`choices` parse error: the hypotheses of
`missing_choices_parse_error` hold for the empty object body and the
conclusions follow by applying it there. -/
theorem missing_choices_parse_error_witness :
    (¬ stripStr "a cat" = "" ∧
      (∀ payload, netOk (Json.obj []) payload 0 = AttemptOutcome.resp 200 (Json.obj [])) ∧
      jLookup [] "error" = none ∧ jLookup [] "choices" = none) ∧
    (((enhance_prompt (netOk (Json.obj [])) ⟨0, 0⟩ "a cat" "photorealistic" 50).output =
        .str ("Error parsing ChatGPT response: " ++ pyKeyRepr "choices") ∧
      (enhance_prompt (netOk (Json.obj [])) ⟨0, 0⟩ "a cat" "photorealistic" 50).run.map
        RunResult.attempts = some 1) ∧
    ((improve_image_prompt (netOk (Json.obj [])) ⟨0, 0⟩ "a cat" "" 50).output =
        .str ("Error parsing ChatGPT response: " ++ pyKeyRepr "choices") ∧
      (improve_image_prompt (netOk (Json.obj [])) ⟨0, 0⟩ "a cat" "" 50).run.map
        RunResult.attempts = some 1) ∧
    ((generate_alternative_prompt (netOk (Json.obj [])) ⟨0, 0⟩ "a cat" "creative").output =
        .str ("Error parsing ChatGPT response: " ++ pyKeyRepr "choices") ∧
      (generate_alternative_prompt (netOk (Json.obj [])) ⟨0, 0⟩ "a cat" "creative").run.map
        RunResult.attempts = some 1)) :=
  ⟨⟨by decide, fun _ => rfl, rfl, rfl⟩,
    missing_choices_parse_error (netOk (Json.obj [])) ⟨0, 0⟩ "a cat"
      "photorealistic" "" "creative" 50 [] (by decide) (fun _ => rfl) rfl rfl⟩

/-- Witness for the server-supplied error passthrough: the hypotheses of
`server_error_payload_passthrough` hold for a body binding `error` to
`"server overloaded"` and the conclusions follow by applying it there. -/
theorem server_error_payload_passthrough_witness :
    (¬ stripStr "a cat" = "" ∧
      (∀ payload, netOk (Json.obj [("error", Json.str "server overloaded")]) payload 0 =
        AttemptOutcome.resp 200 (Json.obj [("error", Json.str "server overloaded")])) ∧
      jLookup [("error", Json.str "server overloaded")] "error" =
        some (Json.str "server overloaded")) ∧
    ((enhance_prompt (netOk (Json.obj [("error", Json.str "server overloaded")])) ⟨0, 0⟩
        "a cat" "photorealistic" 50).output = .str "server overloaded" ∧
      (improve_image_prompt (netOk (Json.obj [("error", Json.str "server overloaded")])) ⟨0, 0⟩
        "a cat" "" 50).output = .str "server overloaded" ∧
      (generate_alternative_prompt (netOk (Json.obj [("error", Json.str "server overloaded")])) ⟨0, 0⟩
        "a cat" "creative").output = .str "server overloaded" ∧
      handleParse (extractContent (errorDict "server overloaded")) = .str "server overloaded") :=
  ⟨⟨by decide, fun _ => rfl, rfl⟩,
    server_error_payload_passthrough (netOk (Json.obj [("error", Json.str "server overloaded")]))
      ⟨0, 0⟩ "a cat" "photorealistic" "" "creative" 50
      [("error", Json.str "server overloaded")] "server overloaded"
      (by decide) (fun _ => rfl) rfl⟩
